import Mathlib

/-!
Shallow embedding of the eodh-notebook-orchestrator service
(`src/main.py`, `src/run_notebook/run_notebook.py`,
`src/create_qlr/create_qlr.py`, `src/create_qlr/get_template.py`)
and proofs about its specification.

Python strings are modelled as Lean `String` (sequences of Unicode code
points); Python dicts of request parameters and input specs are modelled
as association lists in insertion order (keys are unique in the real
dicts); `time.time()` values are modelled as rationals; exceptions are
modelled by `Except` results; the file system and the network are
modelled as explicit inputs.
-/

/-- Python exceptions that the handlers distinguish: `ValueError`,
FastAPI's `HTTPException` (which subclasses `Exception`), and any other
exception. -/
inductive PyExc where
  | valueError (msg : String)
  | httpException (code : Nat) (detail : String)
  | otherError (msg : String)
deriving DecidableEq, Repr

/-- ASCII whitespace stripped by Python `str.strip()` (the Unicode-only
whitespace code points are not modelled). -/
def isPySpace (c : Char) : Bool :=
  c = ' ' || c = '\t' || c = '\n' || c = '\x0d' || c = '\x0b' || c = '\x0c'

/-- Python `str.strip()`: remove leading and trailing whitespace. -/
def pyStrip (s : String) : String :=
  String.mk (((s.data.dropWhile isPySpace).reverse.dropWhile isPySpace).reverse)

/-- Python dict lookup `d[k]` / `k in d` on an association list whose keys
are unique (first match). -/
def dictGet {β : Type} (k : String) : List (String × β) → Option β
  | [] => none
  | (a, b) :: rest => if a = k then some b else dictGet k rest

/-- Decimal digit string to natural number. -/
def digitsVal (l : List Char) : Nat :=
  l.foldl (fun n c => 10 * n + (c.toNat - 48)) 0

/-- Split a character list at the first character satisfying `p`;
the second component is `none` when no such character occurs. -/
def splitOnceBy (p : Char → Bool) : List Char → List Char × Option (List Char)
  | [] => ([], none)
  | c :: rest =>
    if p c then ([], some rest)
    else
      let r := splitOnceBy p rest
      (c :: r.1, r.2)

/-- Exponent part of a float literal: optional sign then nonempty digits. -/
def parseExp (l : List Char) : Option Int :=
  match l with
  | [] => none
  | c :: rest =>
    let sd : Bool × List Char :=
      if c = '-' then (true, rest)
      else if c = '+' then (false, rest)
      else (false, c :: rest)
    if sd.2.isEmpty || !sd.2.all Char.isDigit then none
    else some (if sd.1 then -(digitsVal sd.2 : Int) else (digitsVal sd.2 : Int))

/-- Python `float(s)` on finite decimal literals (optional sign, digits
with optional fraction, optional exponent, surrounding whitespace).
`inf`, `nan` and digit-group underscores are not modelled ( `none` means
`float` raises `ValueError`). The value is modelled as a rational. -/
def pyFloat (s : String) : Option ℚ :=
  let cs := (pyStrip s).data
  let sc : Bool × List Char :=
    match cs with
    | c :: rest =>
      if c = '-' then (true, rest) else if c = '+' then (false, rest) else (false, cs)
    | [] => (false, [])
  let me := splitOnceBy (fun c => c = 'e' || c = 'E') sc.2
  let ifr := splitOnceBy (fun c => c = '.') me.1
  let intPart := ifr.1
  let fracPart := ifr.2.getD []
  if !intPart.all Char.isDigit || !fracPart.all Char.isDigit then none
  else if intPart.isEmpty && fracPart.isEmpty then none
  else
    let base : ℚ := (digitsVal intPart : ℚ) + (digitsVal fracPart : ℚ) / ((10 : ℚ) ^ fracPart.length)
    match me.2 with
    | some e =>
      match parseExp e with
      | none => none
      | some ex => some (if sc.1 then -(base * (10 : ℚ) ^ ex) else base * (10 : ℚ) ^ ex)
    | none => some (if sc.1 then -base else base)

/-- A validated notebook parameter value
(`run_notebook.py:parse_parameters`): a bbox becomes a list of four
floats, a urlList a list of stripped non-empty strings, anything else a
stripped string. -/
inductive ParamValue where
  | bbox (coords : List ℚ)
  | urlList (urls : List String)
  | str (s : String)
deriving DecidableEq, Repr

/-- One iteration of the `parse_parameters` loop body
(`run_notebook.py` lines 74-97): validate `value` against `param_type`;
`none` means the `continue` paths (invalid bbox, empty url list, empty
string, or a `ValueError` from `float`), so the parameter is skipped. -/
def validateParam (param_type value : String) : Option ParamValue :=
  if param_type = "bbox" then
    match (value.splitOn ",").mapM pyFloat with
    | some coords => if coords.length ≠ 4 then none else some (ParamValue.bbox coords)
    | none => none
  else if param_type = "urlList" then
    let urls := ((value.splitOn ",").map pyStrip).filter (fun u => u ≠ "")
    if urls.isEmpty then none else some (ParamValue.urlList urls)
  else
    if pyStrip value = "" then none else some (ParamValue.str (pyStrip value))

/-- `run_notebook.py:parse_parameters`: iterate over the input spec in
order; skip parameters absent from the query and parameters whose value
fails validation; collect the rest. Total: no exception escapes. -/
def parse_parameters (query_params : List (String × String)) :
    List (String × String) → List (String × ParamValue)
  | [] => []
  | (param, param_type) :: rest =>
    match dictGet param query_params with
    | none => parse_parameters query_params rest
    | some value =>
      match validateParam param_type value with
      | none => parse_parameters query_params rest
      | some v => (param, v) :: parse_parameters query_params rest

/-- Python `str.isalnum` on one character, modelled on the ASCII and
Latin-1 range: ASCII letters and digits, the Latin-1 letters
U+00C0-U+00FF (minus the multiplication and division signs U+00D7 and
U+00F7) together with U+00AA, U+00B5, U+00BA, and the Latin-1 numeric
characters U+00B2, U+00B3, U+00B9 and U+00BC-U+00BE. (Python classifies
the full Unicode range; code points above U+00FF are not modelled.) -/
def pyCharIsAlnum (c : Char) : Bool :=
  c.isAlphanum ||
  (c.toNat = 0xAA || c.toNat = 0xB5 || c.toNat = 0xBA) ||
  (c.toNat = 0xB2 || c.toNat = 0xB3 || c.toNat = 0xB9) ||
  (0xBC ≤ c.toNat && c.toNat ≤ 0xBE) ||
  (0xC0 ≤ c.toNat && c.toNat ≤ 0xFF && c.toNat ≠ 0xD7 && c.toNat ≠ 0xF7)

/-- Python `s.isalnum()`: nonempty and every character alphanumeric. -/
def pyIsAlnum (s : String) : Bool :=
  !s.data.isEmpty && s.data.all pyCharIsAlnum

/-- `notebook_id.replace("-", "").replace("_", "")` — each replacement has
a single-character pattern and an empty replacement string, so together
they delete every `-` and `_`. -/
def removeDashUnderscore (s : String) : String :=
  String.mk (s.data.filter (fun c => !(c = '-' || c = '_')))

/-- Results a FastAPI handler can produce: a `Response` with body, media
type and extra headers, a `RedirectResponse`, or an `HTTPException`
propagated to the client as an HTTP error status with a detail string. -/
inductive HandlerResult where
  | response (body : String) (mediaType : String) (headers : List (String × String))
  | redirect (url : String)
  | httpError (code : Nat) (detail : String)
deriving DecidableEq, Repr

/-- The `try:` block of `main.py:run_notebook` (lines 130-146).
`exec` is the outcome of `execute_notebook` for a given stripped id
(its internals — config fetch, parameter parsing, papermill — are the
request environment). The `Bool` records whether `execute_notebook` was
invoked. An `Except.error` is an exception leaving the block. -/
def run_notebook_try (notebook_id : String)
    (exec : String → Except PyExc String) : Except PyExc HandlerResult × Bool :=
  if notebook_id = "" ∨ pyStrip notebook_id = "" then
    (Except.error (PyExc.httpException 400 "Notebook ID cannot be empty"), false)
  else if !pyIsAlnum (removeDashUnderscore notebook_id) then
    (Except.error (PyExc.httpException 400 "Invalid notebook ID format"), false)
  else
    match exec (pyStrip notebook_id) with
    | Except.ok output_id =>
      (Except.ok (HandlerResult.redirect ("/view-notebook/" ++ notebook_id ++ "/" ++ output_id)), true)
    | Except.error e => (Except.error e, true)

/-- `main.py:run_notebook` (lines 127-156): the `try:` block followed by
`except ValueError` (mapped to 404) and `except Exception` (mapped to
500 — this clause also catches the `HTTPException`s raised inside the
`try:`, since `HTTPException` subclasses `Exception`). -/
def run_notebook_model (notebook_id : String)
    (exec : String → Except PyExc String) : HandlerResult × Bool :=
  match run_notebook_try notebook_id exec with
  | (Except.ok r, b) => (r, b)
  | (Except.error (PyExc.valueError m), b) => (HandlerResult.httpError 404 m, b)
  | (Except.error _, b) => (HandlerResult.httpError 500 "Internal server error", b)

/-- `pathlib.Path(url).name` on a POSIX-style path: the final path
component, with empty and `.` components dropped. -/
def pathName (url : String) : String :=
  match ((url.splitOn "/").filter (fun c => c ≠ "" && c ≠ ".")).getLast? with
  | some n => n
  | none => ""

/-- `main.py:get_qlr` (lines 194-215). `create` is the outcome of
`create_qlr(url, collection)`; a `ValueError` maps to 400 with the
error's message, any other exception to 500. -/
def get_qlr (url collection : String) (create : Except PyExc String) : HandlerResult :=
  match create with
  | Except.ok qlr_xml =>
    HandlerResult.response qlr_xml "application/xml"
      [("Content-Disposition", "attachment; filename=\"" ++ (pathName url ++ ".qlr") ++ "\"")]
  | Except.error (PyExc.valueError m) => HandlerResult.httpError 400 m
  | Except.error _ => HandlerResult.httpError 500 "Internal server error"

/-- A notebook entry of the remote JSON configuration list; `type` and
`id` are read with `dict.get` and may be absent. -/
structure NotebookEntry where
  type : Option String
  id : Option String
  file : String
  inputSpec : List (String × String)
deriving DecidableEq, Repr

/-- The predicate of the generator expression in
`run_notebook.py:get_notebook_config` (lines 48-55):
`nb.get("type") == "notebook" and nb.get("id") == notebook_id`. -/
def isNotebookMatch (notebook_id : String) (nb : NotebookEntry) : Bool :=
  nb.type == some "notebook" && nb.id == some notebook_id

/-- Lines 43-60 of `run_notebook.py:get_notebook_config`: validate the
id, return the first matching entry, raise `ValueError` otherwise. -/
def lookupNotebook (config : List NotebookEntry) (notebook_id : String) :
    Except PyExc NotebookEntry :=
  if notebook_id = "" then
    Except.error (PyExc.valueError "Notebook ID must be a non-empty string")
  else
    match config.find? (isNotebookMatch notebook_id) with
    | some nb => Except.ok nb
    | none =>
      Except.error (PyExc.valueError
        ("Notebook id \x27" ++ notebook_id ++ "\x27 not found in config."))

/-- The module-level `_config_cache = {"data": None, "timestamp": 0}`. -/
structure ConfigCache where
  data : Option (List NotebookEntry)
  timestamp : ℚ
deriving DecidableEq

/-- `CONFIG_CACHE_DURATION = 300` seconds. -/
def CONFIG_CACHE_DURATION : ℚ := 300

/-- The `else` branch of the cache check in `get_notebook_config`
(lines 29-41): fetch the remote configuration (`fetch` is the outcome of
`requests.get(CONFIG_URL)`; `none` is a `RequestException`), store it in
the cache with the current time on success, raise `HTTPException(500)`
on failure, then run the lookup of lines 43-60. -/
def fetchAndLookup (cache : ConfigCache) (current_time : ℚ)
    (fetch : Option (List NotebookEntry)) (notebook_id : String) :
    Except PyExc NotebookEntry × ConfigCache :=
  match fetch with
  | some config =>
    (lookupNotebook config notebook_id, { data := some config, timestamp := current_time })
  | none =>
    (Except.error (PyExc.httpException 500 "Failed to fetch notebook configuration"), cache)

/-- `run_notebook.py:get_notebook_config` (lines 19-60): use the cached
configuration when present and younger than `CONFIG_CACHE_DURATION`,
otherwise fetch and cache; then look the notebook up. Returns the result
together with the cache state after the call. -/
def get_notebook_config (cache : ConfigCache) (current_time : ℚ)
    (fetch : Option (List NotebookEntry)) (notebook_id : String) :
    Except PyExc NotebookEntry × ConfigCache :=
  match cache.data with
  | some d =>
    if current_time - cache.timestamp < CONFIG_CACHE_DURATION then
      (lookupNotebook d notebook_id, cache)
    else fetchAndLookup cache current_time fetch notebook_id
  | none => fetchAndLookup cache current_time fetch notebook_id

/-- `notebooks_dir / f"{notebook_id}-{output_id}.ipynb"` in
`run_notebook.py:execute_notebook`. -/
def outputPath (notebook_id output_id : String) : String :=
  "notebooks/" ++ notebook_id ++ "-" ++ output_id ++ ".ipynb"

/-- Outcome of the `try:` block of `execute_notebook` (lines 150-168):
either success or an exception, in both cases with the set of files on
disk when the block finishes (papermill may have written the output file,
fully or partially, before failing). -/
inductive BodyOutcome where
  | ok (fs : List String)
  | fail (e : PyExc) (fs : List String)

/-- `run_notebook.py:execute_notebook` (lines 134-181), as a transformer
of the file-system state: on success return the generated `output_id`;
on an exception delete the output file if it exists, then re-raise. -/
def execute_notebook (notebook_id output_id : String) (body : BodyOutcome) :
    Except PyExc String × List String :=
  let output_path := outputPath notebook_id output_id
  match body with
  | BodyOutcome.ok fs => (Except.ok output_id, fs)
  | BodyOutcome.fail e fs =>
    (Except.error e, if output_path ∈ fs then fs.filter (fun p => p ≠ output_path) else fs)

/-- The opening brace character. -/
def lbrace : Char := Char.ofNat 123

/-- The closing brace character. -/
def rbrace : Char := Char.ofNat 125

/-- Python `str.format` with keyword arguments, for templates whose
replacement fields are plain names (the QLR templates): braces may be
escaped by doubling; a replacement field is looked up in `mapping`.
`none` models `format` raising (unknown field name, stray brace,
unterminated field; format specs and conversions are not modelled).
The first argument is `none` outside a field and `some acc` inside a
field with the (reversed) name accumulated so far. -/
def pyFormatAux (mapping : List (String × String)) :
    Option (List Char) → List Char → Option (List Char)
  | none, [] => some []
  | some _, [] => none
  | none, [c] =>
    if c = lbrace ∨ c = rbrace then none
    else
      match pyFormatAux mapping none [] with
      | some out => some (c :: out)
      | none => none
  | none, c :: c2 :: rest =>
    if c = lbrace then
      if c2 = lbrace then
        match pyFormatAux mapping none rest with
        | some out => some (lbrace :: out)
        | none => none
      else pyFormatAux mapping (some []) (c2 :: rest)
    else if c = rbrace then
      if c2 = rbrace then
        match pyFormatAux mapping none rest with
        | some out => some (rbrace :: out)
        | none => none
      else none
    else
      match pyFormatAux mapping none (c2 :: rest) with
      | some out => some (c :: out)
      | none => none
  | some acc, c :: rest =>
    if c = rbrace then
      match dictGet (String.mk acc.reverse) mapping with
      | some v =>
        match pyFormatAux mapping none rest with
        | some out => some (v.data ++ out)
        | none => none
      | none => none
    else if c = lbrace then none
    else pyFormatAux mapping (some (c :: acc)) rest

/-- Python `template.format(datasource=..., ...)`. -/
def pyFormat (template : String) (mapping : List (String × String)) : Option String :=
  match pyFormatAux mapping none template.data with
  | some out => some (String.mk out)
  | none => none

/-- A raster bounds tuple `(left, bottom, right, top)`; the coordinates
read by rasterio are modelled as rationals. -/
structure Bounds where
  left : ℚ
  bottom : ℚ
  right : ℚ
  top : ℚ
deriving DecidableEq

/-- The metadata dictionary built by `create_qlr.py:get_cog_metadata`
(lines 29-39). -/
structure CogMetadata where
  extent : Bounds
  wgs84_extent : Bounds
  crs_wkt : Option String
  crs_proj4 : Option String
  crs_epsg : Option Int
  width : Nat
  height : Nat
  count : Nat
  dtype : String
deriving DecidableEq

/-- A deterministic decimal rendering, standing in for Python `str` on
the float coordinates interpolated into the template. -/
def pyFloatStr (q : ℚ) : String := toString q

/-- Python `str(x)` for an optional string, `str(None) = "None"`. -/
def pyStrOfOption : Option String → String
  | some s => s
  | none => "None"

/-- `os.path.basename(url)`: everything after the last `/`. -/
def basename (s : String) : String :=
  match (s.splitOn "/").getLast? with
  | some x => x
  | none => ""

/-- `create_qlr.py:generate_qlr` (lines 52-97): require an existing
template file (`readFile` models the file system; `none` means the path
does not exist), default `layer_name` to `os.path.basename(url)`, read
the template and fill it by `str.format`. A formatting exception is
re-raised as `ValueError("Error generating QLR: ...")` (the embedded
exception text is abstracted). -/
def generate_qlr (metadata : CogMetadata) (url : String) (layer_id : String)
    (layer_name : Option String) (template_path : Option String)
    (readFile : String → Option String) : Except String String :=
  match template_path with
  | none => Except.error "Template path is required and must exist"
  | some tp =>
    if tp = "" then Except.error "Template path is required and must exist"
    else
      match readFile tp with
      | none => Except.error "Template path is required and must exist"
      | some template =>
        let layer_name := match layer_name with
          | some n => n
          | none => basename url
        match pyFormat template
          [("datasource", "/vsicurl/" ++ url),
           ("layer_id", layer_id),
           ("layer_name", layer_name),
           ("xmin", pyFloatStr metadata.extent.left),
           ("ymin", pyFloatStr metadata.extent.bottom),
           ("xmax", pyFloatStr metadata.extent.right),
           ("ymax", pyFloatStr metadata.extent.top),
           ("wgs84_xmin", pyFloatStr metadata.wgs84_extent.left),
           ("wgs84_ymin", pyFloatStr metadata.wgs84_extent.bottom),
           ("wgs84_xmax", pyFloatStr metadata.wgs84_extent.right),
           ("wgs84_ymax", pyFloatStr metadata.wgs84_extent.top),
           ("crs_wkt", pyStrOfOption metadata.crs_wkt),
           ("crs_proj4", pyStrOfOption metadata.crs_proj4),
           ("crs_epsg", match metadata.crs_epsg with
             | some n => toString n
             | none => "")] with
        | some out => Except.ok out
        | none => Except.error "Error generating QLR: format error"

/-! ### Helper lemmas -/

theorem dictGet_cons_self {β : Type} (k : String) (b : β) (l : List (String × β)) :
    dictGet k ((k, b) :: l) = some b := by
  simp [dictGet]

theorem dictGet_cons_ne {β : Type} {k a : String} (b : β) (l : List (String × β))
    (h : a ≠ k) : dictGet k ((a, b) :: l) = dictGet k l := by
  simp [dictGet, h]

theorem parse_parameters_cons_absent (qp : List (String × String))
    (q ty : String) (rest : List (String × String)) (h : dictGet q qp = none) :
    parse_parameters qp ((q, ty) :: rest) = parse_parameters qp rest := by
  simp [parse_parameters, h]

theorem parse_parameters_cons_invalid (qp : List (String × String))
    (q ty value : String) (rest : List (String × String))
    (h : dictGet q qp = some value) (hv : validateParam ty value = none) :
    parse_parameters qp ((q, ty) :: rest) = parse_parameters qp rest := by
  simp [parse_parameters, h, hv]

theorem parse_parameters_cons_valid (qp : List (String × String))
    (q ty value : String) (v : ParamValue) (rest : List (String × String))
    (h : dictGet q qp = some value) (hv : validateParam ty value = some v) :
    parse_parameters qp ((q, ty) :: rest) = (q, v) :: parse_parameters qp rest := by
  simp [parse_parameters, h, hv]

theorem parse_parameters_mem_spec (qp : List (String × String)) :
    ∀ (spec : List (String × String)) (p : String) (v : ParamValue),
      (p, v) ∈ parse_parameters qp spec →
      ∃ t value, (p, t) ∈ spec ∧ dictGet p qp = some value ∧
        validateParam t value = some v := by
  intro spec
  induction spec with
  | nil => intro p v h; simp [parse_parameters] at h
  | cons head rest ih =>
    obtain ⟨q, ty⟩ := head
    intro p v h
    cases hq : dictGet q qp with
    | none =>
      rw [parse_parameters_cons_absent qp q ty rest hq] at h
      obtain ⟨t, value, h1, h2, h3⟩ := ih p v h
      exact ⟨t, value, List.mem_cons_of_mem _ h1, h2, h3⟩
    | some value =>
      cases hv : validateParam ty value with
      | none =>
        rw [parse_parameters_cons_invalid qp q ty value rest hq hv] at h
        obtain ⟨t, value', h1, h2, h3⟩ := ih p v h
        exact ⟨t, value', List.mem_cons_of_mem _ h1, h2, h3⟩
      | some pv =>
        rw [parse_parameters_cons_valid qp q ty value pv rest hq hv] at h
        rcases List.mem_cons.mp h with heq | hmem
        · injection heq with hp hv'
          subst hp
          subst hv'
          exact ⟨ty, value, List.mem_cons_self .., hq, hv⟩
        · obtain ⟨t, value', h1, h2, h3⟩ := ih p v hmem
          exact ⟨t, value', List.mem_cons_of_mem _ h1, h2, h3⟩

theorem parse_parameters_not_mem (qp : List (String × String)) :
    ∀ (spec : List (String × String)) (p : String),
      p ∉ spec.map Prod.fst → dictGet p (parse_parameters qp spec) = none := by
  intro spec
  induction spec with
  | nil => intro p _; rfl
  | cons head rest ih =>
    obtain ⟨q, ty⟩ := head
    intro p hp
    simp only [List.map_cons, List.mem_cons] at hp
    push_neg at hp
    obtain ⟨hpq, hprest⟩ := hp
    cases hq : dictGet q qp with
    | none =>
      rw [parse_parameters_cons_absent qp q ty rest hq]
      exact ih p hprest
    | some value =>
      cases hv : validateParam ty value with
      | none =>
        rw [parse_parameters_cons_invalid qp q ty value rest hq hv]
        exact ih p hprest
      | some pv =>
        rw [parse_parameters_cons_valid qp q ty value pv rest hq hv]
        rw [dictGet_cons_ne _ _ (fun h => hpq h.symm)]
        exact ih p hprest

theorem key_nodup_mem_unique {β : Type} :
    ∀ {l : List (String × β)}, (l.map Prod.fst).Nodup →
      ∀ {p : String} {a b : β}, (p, a) ∈ l → (p, b) ∈ l → a = b := by
  intro l
  induction l with
  | nil => intro _ p a b ha; cases ha
  | cons head rest ih =>
    obtain ⟨q, c⟩ := head
    intro hnd p a b ha hb
    simp only [List.map_cons, List.nodup_cons] at hnd
    obtain ⟨hq, hnd'⟩ := hnd
    rcases List.mem_cons.mp ha with ha' | ha' <;>
      rcases List.mem_cons.mp hb with hb' | hb'
    · injection ha' with h1 h2
      injection hb' with h3 h4
      rw [h2, h4]
    · injection ha' with h1 h2
      exact absurd (List.mem_map_of_mem Prod.fst hb') (h1 ▸ hq)
    · injection hb' with h1 h2
      exact absurd (List.mem_map_of_mem Prod.fst ha') (h1 ▸ hq)
    · exact ih hnd' ha' hb'

theorem validateParam_bbox {value : String} {v : ParamValue}
    (h : validateParam "bbox" value = some v) :
    ∃ coords, v = ParamValue.bbox coords ∧ coords.length = 4 := by
  unfold validateParam at h
  split at h
  case isFalse hne => exact absurd rfl hne
  case isTrue =>
    split at h
    case h_2 => cases h
    case h_1 coords hm =>
      split at h
      case isTrue => cases h
      case isFalse hl =>
        injection h with h'
        exact ⟨coords, h'.symm, by omega⟩

/-! ### Claim theorems -/

/-- C1: for every request and input spec, `parse_parameters` is total
(no exception is raised — it is a Lean function): every query parameter
named in the input spec whose value fails its type's validation is
omitted from the result, every one whose value passes is kept with its
validated value, and the other parameters of the spec are processed
independently: the result's entry at each spec key `p` of type `t` is
exactly `(dictGet p qp).bind (validateParam t)`. -/
theorem parse_parameters_skips_invalid (qp spec : List (String × String))
    (hnd : (spec.map Prod.fst).Nodup) (p t : String) (hmem : (p, t) ∈ spec) :
    dictGet p (parse_parameters qp spec) = (dictGet p qp).bind (validateParam t) := by
  induction spec with
  | nil => cases hmem
  | cons head rest ih =>
    obtain ⟨q, ty⟩ := head
    simp only [List.map_cons, List.nodup_cons] at hnd
    obtain ⟨hq_not, hnd_rest⟩ := hnd
    rcases List.mem_cons.mp hmem with heq | hmem'
    · injection heq with hp ht
      subst hp
      subst ht
      cases hdq : dictGet p qp with
      | none =>
        rw [parse_parameters_cons_absent qp p t rest hdq, Option.bind]
        exact parse_parameters_not_mem qp rest p hq_not
      | some value =>
        cases hv : validateParam t value with
        | none =>
          rw [parse_parameters_cons_invalid qp p t value rest hdq hv]
          rw [Option.some_bind, hv]
          exact parse_parameters_not_mem qp rest p hq_not
        | some pv =>
          rw [parse_parameters_cons_valid qp p t value pv rest hdq hv]
          rw [dictGet_cons_self, Option.some_bind, hv]
    · have hpq : p ≠ q := by
        intro he
        exact hq_not (he ▸ List.mem_map_of_mem Prod.fst hmem')
      cases hdq : dictGet q qp with
      | none =>
        rw [parse_parameters_cons_absent qp q ty rest hdq]
        exact ih hnd_rest hmem'
      | some value =>
        cases hv : validateParam ty value with
        | none =>
          rw [parse_parameters_cons_invalid qp q ty value rest hdq hv]
          exact ih hnd_rest hmem'
        | some pv =>
          rw [parse_parameters_cons_valid qp q ty value pv rest hdq hv]
          rw [dictGet_cons_ne _ _ (fun h => hpq h.symm)]
          exact ih hnd_rest hmem'

/-- C1 witness: a request with a valid bbox parameter, at spec key
`"b"`. -/
theorem parse_parameters_skips_invalid_witness :
    dictGet "b" (parse_parameters [("b", "1,2,3,4"), ("s", " ")]
        [("b", "bbox"), ("s", "str")]) =
      (dictGet "b" [("b", "1,2,3,4"), ("s", " ")]).bind (validateParam "bbox") :=
  parse_parameters_skips_invalid [("b", "1,2,3,4"), ("s", " ")]
    [("b", "bbox"), ("s", "str")] (by decide) "b" "bbox" (by decide)

/-- C9: every key of the dictionary returned by `parse_parameters` is a
key of the input spec (so query parameters not named in the spec are
never passed on), and a returned key declared with type `"bbox"` holds a
list of exactly four floats. -/
theorem parse_parameters_invariants (qp spec : List (String × String))
    (hnd : (spec.map Prod.fst).Nodup) (p : String) (v : ParamValue)
    (hmem : (p, v) ∈ parse_parameters qp spec) :
    p ∈ spec.map Prod.fst ∧
    ((p, "bbox") ∈ spec → ∃ coords, v = ParamValue.bbox coords ∧ coords.length = 4) := by
  obtain ⟨t, value, h1, h2, h3⟩ := parse_parameters_mem_spec qp spec p v hmem
  constructor
  · exact List.mem_map_of_mem Prod.fst h1
  · intro hb
    have ht : t = "bbox" := key_nodup_mem_unique hnd h1 hb
    subst ht
    exact validateParam_bbox h3

/-- C9 witness: a parsed string-typed parameter, showing its key comes
from the spec. -/
theorem parse_parameters_invariants_witness :
    ("s" : String) ∈ ([("s", "str")] : List (String × String)).map Prod.fst ∧
    ((("s" : String), ("bbox" : String)) ∈ ([("s", "str")] : List (String × String)) →
      ∃ coords, ParamValue.str "x" = ParamValue.bbox coords ∧ coords.length = 4) :=
  parse_parameters_invariants [("s", " x ")] [("s", "str")] (by decide) "s"
    (ParamValue.str "x") (by decide)

theorem get_notebook_config_of_fresh (cache : ConfigCache) (t : ℚ)
    (fetch : Option (List NotebookEntry)) (nid : String)
    (d : List NotebookEntry) (hd : cache.data = some d)
    (hf : t - cache.timestamp < CONFIG_CACHE_DURATION) :
    get_notebook_config cache t fetch nid = (lookupNotebook d nid, cache) := by
  simp only [get_notebook_config, hd]
  rw [if_pos hf]

theorem get_notebook_config_of_stale (cache : ConfigCache) (t : ℚ)
    (fetch : Option (List NotebookEntry)) (nid : String)
    (hs : cache.data = none ∨ CONFIG_CACHE_DURATION ≤ t - cache.timestamp)
    (cfg : List NotebookEntry) (hf : fetch = some cfg) :
    get_notebook_config cache t fetch nid =
      (lookupNotebook cfg nid, { data := some cfg, timestamp := t }) := by
  rcases hs with hn | hle
  · simp only [get_notebook_config, hn, fetchAndLookup, hf]
  · cases hdata : cache.data with
    | none => simp only [get_notebook_config, hdata, fetchAndLookup, hf]
    | some d =>
      simp only [get_notebook_config, hdata, fetchAndLookup, hf]
      rw [if_neg (not_lt.mpr hle)]

/-- C2: the cached configuration is used exactly when cached data is
present and was stored strictly less than `CONFIG_CACHE_DURATION = 300`
seconds before the call (the result is computed from the cached list and
the cache is left unchanged); once the cache is absent or at least 300
seconds old, the configuration is re-fetched and, on success, the cache
holds the fetched list with the current time as its timestamp. -/
theorem get_notebook_config_cache_policy (cache : ConfigCache) (t : ℚ)
    (fetch : Option (List NotebookEntry)) (nid : String) :
    (∀ d, cache.data = some d → t - cache.timestamp < CONFIG_CACHE_DURATION →
      get_notebook_config cache t fetch nid = (lookupNotebook d nid, cache)) ∧
    ((cache.data = none ∨ CONFIG_CACHE_DURATION ≤ t - cache.timestamp) →
      ∀ cfg, fetch = some cfg →
        get_notebook_config cache t fetch nid =
          (lookupNotebook cfg nid, { data := some cfg, timestamp := t })) ∧
    ((cache.data = none ∨ CONFIG_CACHE_DURATION ≤ t - cache.timestamp) →
      fetch = none →
        get_notebook_config cache t fetch nid =
          (Except.error (PyExc.httpException 500 "Failed to fetch notebook configuration"),
            cache)) := by
  refine ⟨?_, ?_, ?_⟩
  · intro d hd hf
    exact get_notebook_config_of_fresh cache t fetch nid d hd hf
  · intro hs cfg hf
    exact get_notebook_config_of_stale cache t fetch nid hs cfg hf
  · intro hs hf
    rcases hs with hn | hle
    · simp only [get_notebook_config, hn, fetchAndLookup, hf]
    · cases hdata : cache.data with
      | none => simp only [get_notebook_config, hdata, fetchAndLookup, hf]
      | some d =>
        simp only [get_notebook_config, hdata, fetchAndLookup, hf]
        rw [if_neg (not_lt.mpr hle)]

/-- C2 witness: an empty cache forces a fetch, which is stored with the
current time. -/
theorem get_notebook_config_cache_policy_witness :
    get_notebook_config ⟨none, 0⟩ 10 (some []) "a" =
      (lookupNotebook [] "a", { data := some [], timestamp := 10 }) :=
  (get_notebook_config_cache_policy ⟨none, 0⟩ 10 (some []) "a").2.1 (Or.inl rfl) [] rfl

theorem find?_first {α : Type} (p : α → Bool) :
    ∀ (l : List α) (a : α), l.find? p = some a ↔
      (p a = true ∧ ∃ l₁ l₂, l = l₁ ++ a :: l₂ ∧ ∀ x ∈ l₁, p x = false) := by
  intro l
  induction l with
  | nil => intro a; simp [List.find?]
  | cons h rest ih =>
    intro a
    by_cases hph : p h = true
    · rw [List.find?_cons_of_pos _ hph]
      constructor
      · intro he
        injection he with he
        subst he
        exact ⟨hph, [], rest, rfl, by simp⟩
      · rintro ⟨hpa, l₁, l₂, heq, hall⟩
        cases l₁ with
        | nil =>
          injection heq with h1 _
          rw [h1]
        | cons b bs =>
          injection heq with hb _
          subst hb
          rw [hall h (List.mem_cons_self ..)] at hph
          cases hph
    · have hph' : p h = false := by
        cases hpe : p h
        · rfl
        · exact absurd hpe hph
      rw [List.find?_cons_of_neg _ hph, ih a]
      constructor
      · rintro ⟨hpa, l₁, l₂, heq, hall⟩
        refine ⟨hpa, h :: l₁, l₂, by rw [heq]; exact (List.cons_append ..).symm, ?_⟩
        intro x hx
        rcases List.mem_cons.mp hx with hx' | hx'
        · rw [hx']
          exact hph'
        · exact hall x hx'
      · rintro ⟨hpa, l₁, l₂, heq, hall⟩
        cases l₁ with
        | nil =>
          injection heq with h1 _
          rw [h1] at hph'
          rw [hpa] at hph'
          cases hph'
        | cons b bs =>
          injection heq with hb hrest
          refine ⟨hpa, bs, l₂, hrest, ?_⟩
          intro x hx
          exact hall x (List.mem_cons_of_mem _ hx)

theorem isNotebookMatch_iff (nid : String) (nb : NotebookEntry) :
    isNotebookMatch nid nb = true ↔ (nb.type = some "notebook" ∧ nb.id = some nid) := by
  unfold isNotebookMatch
  rw [Bool.and_eq_true, beq_iff_eq, beq_iff_eq]

/-- C6: with a fresh cache holding the configuration list `cfg` and a
non-empty `notebook_id`, `get_notebook_config` returns `Except.ok nb`
exactly when `nb` is the first element of `cfg` whose `type` field is
`"notebook"` and whose `id` field is `notebook_id`, and raises
`ValueError` when no element of `cfg` matches. -/
theorem get_notebook_config_first_match (cache : ConfigCache) (t : ℚ)
    (fetch : Option (List NotebookEntry)) (nid : String) (cfg : List NotebookEntry)
    (hd : cache.data = some cfg) (hfresh : t - cache.timestamp < CONFIG_CACHE_DURATION)
    (hnid : nid ≠ "") :
    (∀ nb, (get_notebook_config cache t fetch nid).1 = Except.ok nb ↔
      (nb.type = some "notebook" ∧ nb.id = some nid ∧
        ∃ l₁ l₂, cfg = l₁ ++ nb :: l₂ ∧
          ∀ x ∈ l₁, ¬(x.type = some "notebook" ∧ x.id = some nid))) ∧
    ((∀ nb ∈ cfg, ¬(nb.type = some "notebook" ∧ nb.id = some nid)) →
      (get_notebook_config cache t fetch nid).1 =
        Except.error (PyExc.valueError
          ("Notebook id \x27" ++ nid ++ "\x27 not found in config."))) := by
  rw [get_notebook_config_of_fresh cache t fetch nid cfg hd hfresh]
  constructor
  · intro nb
    unfold lookupNotebook
    rw [if_neg hnid]
    cases hfind : cfg.find? (isNotebookMatch nid) with
    | none =>
      constructor
      · intro he
        cases he
      · rintro ⟨h1, h2, l₁, l₂, heq, _⟩
        have : isNotebookMatch nid nb = true := (isNotebookMatch_iff nid nb).mpr ⟨h1, h2⟩
        have hnone := List.find?_eq_none.mp hfind nb (by rw [heq]; exact List.mem_append_right _ (List.mem_cons_self ..))
        exact absurd this hnone
    | some nb' =>
      constructor
      · intro he
        injection he with he
        subst he
        obtain ⟨hp, l₁, l₂, heq, hall⟩ := (find?_first (isNotebookMatch nid) cfg nb').mp hfind
        obtain ⟨h1, h2⟩ := (isNotebookMatch_iff nid nb').mp hp
        refine ⟨h1, h2, l₁, l₂, heq, ?_⟩
        intro x hx hcontra
        have hx' : isNotebookMatch nid x = true := (isNotebookMatch_iff nid x).mpr hcontra
        rw [hall x hx] at hx'
        cases hx'
      · rintro ⟨h1, h2, l₁, l₂, heq, hall⟩
        have hfind2 : cfg.find? (isNotebookMatch nid) = some nb := by
          rw [find?_first]
          refine ⟨(isNotebookMatch_iff nid nb).mpr ⟨h1, h2⟩, l₁, l₂, heq, ?_⟩
          intro x hx
          cases hpx : isNotebookMatch nid x
          · rfl
          · exact absurd ((isNotebookMatch_iff nid x).mp hpx) (hall x hx)
        rw [hfind] at hfind2
        injection hfind2 with he
        rw [he]
  · intro hnone
    unfold lookupNotebook
    rw [if_neg hnid]
    have : cfg.find? (isNotebookMatch nid) = none := by
      rw [List.find?_eq_none]
      intro x hx hmatch
      exact hnone x hx ((isNotebookMatch_iff nid x).mp hmatch)
    rw [this]

/-- C6 witness: a one-element configuration looked up from a fresh
cache. -/
theorem get_notebook_config_first_match_witness :
    (get_notebook_config ⟨some [⟨some "notebook", some "a", "f.ipynb", []⟩], 0⟩
        10 none "a").1 =
      Except.ok ⟨some "notebook", some "a", "f.ipynb", []⟩ :=
  ((get_notebook_config_first_match _ 10 none "a" _ rfl
      (by simp only [sub_zero]; decide) (by decide)).1 _).mpr
    ⟨rfl, rfl, [], [], rfl, by simp⟩

/-- C3: template substitution is deterministic — two calls to
`generate_qlr` with equal metadata, url, layer id and layer name, the
same template path and an unchanged file system return identical
results. -/
theorem generate_qlr_deterministic (m₁ m₂ : CogMetadata) (u₁ u₂ lid₁ lid₂ : String)
    (ln₁ ln₂ : Option String) (tp : Option String) (readFile : String → Option String)
    (hm : m₁ = m₂) (hu : u₁ = u₂) (hl : lid₁ = lid₂) (hn : ln₁ = ln₂) :
    generate_qlr m₁ u₁ lid₁ ln₁ tp readFile = generate_qlr m₂ u₂ lid₂ ln₂ tp readFile := by
  subst hm
  subst hu
  subst hl
  subst hn
  rfl

/-- C3 witness: two identical calls on a concrete template. -/
theorem generate_qlr_deterministic_witness :
    generate_qlr ⟨⟨0, 0, 1, 1⟩, ⟨0, 0, 1, 1⟩, none, none, none, 1, 1, 1, "uint8"⟩
        "http://h/a.tif" "L" none (some "t.qlr")
        (fun p => if p = "t.qlr" then some "<l id=\"\x7blayer_id\x7d\"/>" else none) =
      generate_qlr ⟨⟨0, 0, 1, 1⟩, ⟨0, 0, 1, 1⟩, none, none, none, 1, 1, 1, "uint8"⟩
        "http://h/a.tif" "L" none (some "t.qlr")
        (fun p => if p = "t.qlr" then some "<l id=\"\x7blayer_id\x7d\"/>" else none) :=
  generate_qlr_deterministic _ _ _ _ _ _ _ _ _ _ rfl rfl rfl rfl

/-- C5: the `/qlr` handler maps a `ValueError` from `create_qlr` to
HTTP 400 with the error's message, and any other exception to HTTP 500
with detail "Internal server error"; `get_qlr` is total, so no exception
escapes unmapped. -/
theorem get_qlr_error_mapping (url collection : String) (create : Except PyExc String) :
    (∀ m, create = Except.error (PyExc.valueError m) →
      get_qlr url collection create = HandlerResult.httpError 400 m) ∧
    (∀ e, create = Except.error e → (∀ m, e ≠ PyExc.valueError m) →
      get_qlr url collection create = HandlerResult.httpError 500 "Internal server error") := by
  constructor
  · intro m hm
    subst hm
    rfl
  · intro e he hne
    subst he
    cases e with
    | valueError m => exact absurd rfl (hne m)
    | httpException c d => rfl
    | otherError m => rfl

/-- C5 witness: a `ValueError` outcome becomes a 400 with its message. -/
theorem get_qlr_error_mapping_witness :
    get_qlr "u" "c" (Except.error (PyExc.valueError "bad")) =
      HandlerResult.httpError 400 "bad" :=
  (get_qlr_error_mapping "u" "c" (Except.error (PyExc.valueError "bad"))).1 "bad" rfl

theorem run_notebook_try_ok (nid oid : String) (exec : String → Except PyExc String)
    (h1 : ¬(nid = "" ∨ pyStrip nid = ""))
    (h2 : pyIsAlnum (removeDashUnderscore nid) = true)
    (he : exec (pyStrip nid) = Except.ok oid) :
    run_notebook_try nid exec =
      (Except.ok (HandlerResult.redirect ("/view-notebook/" ++ nid ++ "/" ++ oid)), true) := by
  unfold run_notebook_try
  rw [if_neg h1]
  rw [if_neg (show ¬(!pyIsAlnum (removeDashUnderscore nid)) = true by rw [h2]; decide)]
  rw [he]

/-- C7: a successful `/qlr` request responds with exactly the XML string
from `create_qlr`, media type `application/xml`, and a
`Content-Disposition` naming the attachment as the final path component
of `url` with `.qlr` appended; a successful `/run/notebook/{id}` request
redirects to `/view-notebook/{notebook_id}/{output_id}` with the
`output_id` returned by `execute_notebook`. -/
theorem handlers_success_responses (url collection xml : String)
    (create : Except PyExc String) (hc : create = Except.ok xml)
    (nid oid : String) (exec : String → Except PyExc String)
    (h1 : ¬(nid = "" ∨ pyStrip nid = ""))
    (h2 : pyIsAlnum (removeDashUnderscore nid) = true)
    (he : exec (pyStrip nid) = Except.ok oid) :
    get_qlr url collection create =
      HandlerResult.response xml "application/xml"
        [("Content-Disposition",
          "attachment; filename=\"" ++ (pathName url ++ ".qlr") ++ "\"")] ∧
    (run_notebook_model nid exec).1 =
      HandlerResult.redirect ("/view-notebook/" ++ nid ++ "/" ++ oid) := by
  constructor
  · subst hc
    rfl
  · unfold run_notebook_model
    rw [run_notebook_try_ok nid oid exec h1 h2 he]

/-- C7 witness: concrete successful requests to both endpoints. -/
theorem handlers_success_responses_witness :
    get_qlr "http://h/a/b.tif" "col" (Except.ok "<x/>") =
      HandlerResult.response "<x/>" "application/xml"
        [("Content-Disposition",
          "attachment; filename=\"" ++ (pathName "http://h/a/b.tif" ++ ".qlr") ++ "\"")] ∧
    (run_notebook_model "abc" (fun _ => Except.ok "o1")).1 =
      HandlerResult.redirect ("/view-notebook/" ++ "abc" ++ "/" ++ "o1") :=
  handlers_success_responses "http://h/a/b.tif" "col" "<x/>" (Except.ok "<x/>") rfl
    "abc" "o1" (fun _ => Except.ok "o1") (by decide) (by decide) rfl

/-- C4 exhibit: for `notebook_id = "a.b"` (a character outside the
allowed set) and for the empty id, the handler responds 500 "Internal
server error", not 400: the `HTTPException(400)` raised inside the
`try:` block is caught by the final `except Exception` clause, because
`HTTPException` subclasses `Exception`. -/
theorem run_notebook_invalid_id_maps_to_500 :
    (run_notebook_model "a.b" (fun _ => Except.ok "out")).1 =
      HandlerResult.httpError 500 "Internal server error" ∧
    (run_notebook_model "" (fun _ => Except.ok "out")).1 =
      HandlerResult.httpError 500 "Internal server error" :=
  ⟨rfl, rfl⟩

/-- C8 counterexample: `"caf\xE9"` contains `\xE9` (é), which is not an
ASCII alphanumeric, `-` or `_`, yet the handler passes the sanitization
check (Python `str.isalnum` is Unicode-aware) and invokes
`execute_notebook` with it. -/
theorem run_notebook_ascii_sanitization_fails :
    ('\xE9' ∈ ("caf\xE9" : String).data ∧
      ¬('\xE9'.isAlphanum = true ∨ '\xE9' = '-' ∨ '\xE9' = '_')) ∧
    (run_notebook_model "caf\xE9" (fun _ => Except.ok "out")).2 = true := by
  refine ⟨⟨?_, ?_⟩, ?_⟩
  · decide
  · decide
  · rfl

theorem run_notebook_model_snd (nid : String) (exec : String → Except PyExc String) :
    (run_notebook_model nid exec).2 = (run_notebook_try nid exec).2 := by
  unfold run_notebook_model
  cases hr : run_notebook_try nid exec with
  | mk res b =>
    cases res with
    | ok r => rfl
    | error e => cases e <;> rfl

theorem sanitized_chars_of_isAlnum (nid : String)
    (h : pyIsAlnum (removeDashUnderscore nid) = true) :
    ∀ c ∈ nid.data, pyCharIsAlnum c = true ∨ c = '-' ∨ c = '_' := by
  intro c hc
  by_cases hdash : c = '-'
  · exact Or.inr (Or.inl hdash)
  by_cases hund : c = '_'
  · exact Or.inr (Or.inr hund)
  left
  have hmem : c ∈ (removeDashUnderscore nid).data := by
    show c ∈ nid.data.filter (fun c => !(c = '-' || c = '_'))
    rw [List.mem_filter]
    refine ⟨hc, ?_⟩
    simp [hdash, hund]
  unfold pyIsAlnum at h
  rw [Bool.and_eq_true] at h
  rw [List.all_eq_true] at h
  exact h.2 c hmem

/-- C8 (amended): the handler never invokes `execute_notebook` — and so
never forms the output path — when `notebook_id` is empty,
whitespace-only, or contains a character that is neither alphanumeric in
the sense of Python's Unicode-aware `str.isalnum` nor `-` nor `_`
(contrapositive: if `execute_notebook` runs, every character of the id
is Python-alphanumeric, `-` or `_`). -/
theorem run_notebook_only_sanitized_ids (nid : String)
    (exec : String → Except PyExc String)
    (h : (run_notebook_model nid exec).2 = true) :
    nid ≠ "" ∧ pyStrip nid ≠ "" ∧
    ∀ c ∈ nid.data, pyCharIsAlnum c = true ∨ c = '-' ∨ c = '_' := by
  rw [run_notebook_model_snd] at h
  unfold run_notebook_try at h
  by_cases h1 : (nid = "" ∨ pyStrip nid = "")
  · rw [if_pos h1] at h
    simp at h
  rw [if_neg h1] at h
  by_cases h2 : pyIsAlnum (removeDashUnderscore nid) = true
  · push_neg at h1
    exact ⟨h1.1, h1.2, sanitized_chars_of_isAlnum nid h2⟩
  · rw [if_pos (show (!pyIsAlnum (removeDashUnderscore nid)) = true by
      cases hb : pyIsAlnum (removeDashUnderscore nid)
      · rfl
      · exact absurd hb h2)] at h
    simp at h

/-- C8 (amended) witness: a clean identifier that does reach
`execute_notebook`. -/
theorem run_notebook_only_sanitized_ids_witness :
    ("abc" : String) ≠ "" ∧ pyStrip "abc" ≠ "" ∧
    ∀ c ∈ ("abc" : String).data, pyCharIsAlnum c = true ∨ c = '-' ∨ c = '_' :=
  run_notebook_only_sanitized_ids "abc" (fun _ => Except.ok "o") rfl

/-- C10: when the body of `execute_notebook` raises, the exception is
re-raised unchanged and the output file
`notebooks/{notebook_id}-{output_id}.ipynb` does not exist afterwards —
any partially written output is deleted before the error propagates. -/
theorem execute_notebook_cleanup (notebook_id output_id : String)
    (e : PyExc) (fs : List String) :
    (execute_notebook notebook_id output_id (BodyOutcome.fail e fs)).1 = Except.error e ∧
    outputPath notebook_id output_id ∉
      (execute_notebook notebook_id output_id (BodyOutcome.fail e fs)).2 := by
  refine ⟨rfl, ?_⟩
  show outputPath notebook_id output_id ∉
    (if outputPath notebook_id output_id ∈ fs then
      fs.filter (fun p => p ≠ outputPath notebook_id output_id) else fs)
  by_cases h : outputPath notebook_id output_id ∈ fs
  · rw [if_pos h]
    intro hmem
    have := (List.mem_filter.mp hmem).2
    simp at this
  · rw [if_neg h]
    exact h
